import Mathlib

/-!
Verification development for the marketplace back-office payout/refund core.

The definitions below are a shallow embedding of the TypeScript services
(`payout_service.ts`, `return_service.ts`, `order_status_service.ts`) over an
explicit database state.  Conventions:

* decimal money columns are modelled as `ℤ` whole-currency amounts (every
  operation the services perform on an amount is addition or multiplication,
  which `ℤ` models exactly; on such amounts `Math.round(amount * 100)` is
  `amount * 100`);
* status columns are modelled as `String`, exactly as the code compares them
  (the code mixes `"Pending"` and `"pending"`, so a case-preserving model is
  essential);
* timestamps are modelled as `Nat` instants, with `now` passed explicitly;
* `db.transaction` blocks are modelled by a function returning `Except`; a
  thrown error aborts the transaction, so the committed state on the error
  path is the state at transaction entry (rollback).  The error value also
  carries the uncommitted transaction state at the throw point so that
  theorems can speak about writes the rollback discards;
* the payment gateway is an oracle (`Gateway`): each call's outcome is an
  input to the function under verification;
* e-mail sending has no observable effect on the database and is omitted;
  audit-log writes append an action tag to `DB.audits`.
-/

deriving instance DecidableEq for Except

/-- A merchant row.  The table has two identifier columns, `id` and
`merchantId`; the services are inconsistent about which one they join on, so
both are kept. -/
structure Merchant where
  id : Nat
  merchantId : Nat
  status : String
  storeName : String
  totalPayouts : ℤ
  lastPayoutDate : Option Nat
  deriving Repr, DecidableEq

/-- An order-merchant split row (`order_merchant_split`). -/
structure Split where
  id : Nat
  merchantId : Nat
  amountDue : ℤ
  status : String
  holdUntil : Nat
  deriving Repr, DecidableEq

/-- A payout row (`payouts` table). -/
structure Payout where
  id : Nat
  merchantId : Nat
  amount : ℤ
  status : String
  payoutAccountId : Option String
  paystackTransferId : Option String
  deriving Repr, DecidableEq

/-- A merchant bank-details row (`merchant_bank_details`). -/
structure BankDetails where
  merchantId : Nat
  recipientCode : Option String
  deriving Repr, DecidableEq

/-- An order row (fields the services read). -/
structure Order where
  id : Nat
  totalAmount : ℤ
  status : String
  deriving Repr, DecidableEq

/-- An order-item row. `productId` is NOT NULL in the schema, `variantId` is
nullable. -/
structure OrderItem where
  id : Nat
  orderId : Nat
  productId : Nat
  variantId : Option Nat
  merchantId : Nat
  quantity : Nat
  price : ℤ
  fulfillmentStatus : String
  deriving Repr, DecidableEq

/-- An inventory row (variant-or-product keyed, plus merchant). -/
structure Inventory where
  variantId : Option Nat
  productId : Option Nat
  merchantId : Nat
  quantity : Int
  reservedQuantity : Int
  deriving Repr, DecidableEq

/-- A payment row. -/
structure Payment where
  id : Nat
  orderId : Nat
  status : String
  transactionId : Option String
  deriving Repr, DecidableEq

/-- A return-request row. -/
structure ReturnRequest where
  id : Nat
  orderItemId : Nat
  status : String
  deriving Repr, DecidableEq

/-- The database state: one list per table, a fresh-id counter for payout
inserts, and the audit log (action tags only). -/
structure DB where
  merchants : List Merchant
  bankDetails : List BankDetails
  splits : List Split
  payouts : List Payout
  nextPayoutId : Nat
  orders : List Order
  orderItems : List OrderItem
  inventories : List Inventory
  payments : List Payment
  returnRequests : List ReturnRequest
  audits : List String
  deriving Repr, DecidableEq

/-- Successful response of the gateway's `initiateTransfer`. -/
structure TransferResp where
  transferCode : String
  reference : String
  deriving Repr, DecidableEq

/-- Successful response of the gateway's `verifyTransfer`. -/
structure VerifyResp where
  status : String
  deriving Repr, DecidableEq

/-- Successful response of the gateway's `createRefund`. -/
structure RefundResp where
  id : Nat
  deriving Repr, DecidableEq

/-- Gateway oracle: the outcome of each external call made during one
invocation (`.error` models the call throwing). -/
structure Gateway where
  initiateResult : Except String TransferResp
  verifyResult : Except String VerifyResp
  deriving Repr

/-- One element of the list `aggregateEligiblePayouts` returns. -/
structure AggResult where
  payoutId : Nat
  merchantId : Nat
  amount : ℤ
  splitsCount : Nat
  deriving Repr, DecidableEq

/-- Eligibility filter used by aggregation: the merchant's splits with
status `payout_requested` whose `holdUntil` has passed. -/
def eligibleSplitsFor (now : Nat) (db : DB) (merchantId : Nat) : List Split :=
  db.splits.filter fun s =>
    s.merchantId == merchantId && s.status == "payout_requested" &&
      decide (s.holdUntil < now)

/-- Body of the per-merchant loop of `aggregateEligiblePayouts`. -/
def aggregateStep (now : Nat) (acc : DB × List AggResult) (m : Merchant) :
    DB × List AggResult :=
  let (db, rs) := acc
  let eligible := eligibleSplitsFor now db m.id
  if eligible.isEmpty then acc
  else
    let totalAmount := eligible.foldl (fun sum s => sum + s.amountDue) 0
    match db.bankDetails.find? (fun b => b.merchantId == m.id) with
    | none => acc
    | some bd =>
      match bd.recipientCode with
      | none => acc
      | some rc =>
        let p : Payout :=
          { id := db.nextPayoutId, merchantId := m.id, amount := totalAmount,
            status := "pending", payoutAccountId := some rc,
            paystackTransferId := none }
        ({ db with
           payouts := db.payouts ++ [p],
           nextPayoutId := db.nextPayoutId + 1 },
         rs ++ [{ payoutId := p.id, merchantId := m.id, amount := totalAmount,
                  splitsCount := eligible.length }])

/-- Function `aggregateEligiblePayouts` from `payout_service.ts`: for every active
merchant, sum the eligible splits, skip merchants without a recipient code,
and insert one new payout row with status `"pending"` (note the lowercase
literal in the source). -/
def aggregateEligiblePayouts (now : Nat) (db : DB) : DB × List AggResult :=
  (db.merchants.filter (fun m => m.status == "active")).foldl
    (aggregateStep now) (db, [])

/-- The bulk split update the payout service issues: for the given merchant,
move every split currently in `fromStatus` to `toStatus` (a filter-and-update
with no per-split payout-id key). -/
def setSplitsStatus (merchantId : Nat) (fromStatus toStatus : String)
    (l : List Split) : List Split :=
  l.map (fun s =>
    if s.merchantId == merchantId && s.status == fromStatus
    then { s with status := toStatus } else s)

/-- Update the status of the payout row with the given id. -/
def setPayoutStatus (payoutId : Nat) (st : String) (l : List Payout) :
    List Payout :=
  l.map (fun p => if p.id == payoutId then { p with status := st } else p)

/-- Update the status and the stored transfer code of a payout row. -/
def setPayoutStatusAndCode (payoutId : Nat) (st code : String)
    (l : List Payout) : List Payout :=
  l.map (fun p =>
    if p.id == payoutId
    then { p with status := st, paystackTransferId := some code } else p)

/-- Overwrite the running total and last-payout date of every merchant row
whose `id` column equals the given value (the services join the update on
`merchants.id`). -/
def setMerchantTotals (merchantId : Nat) (total : ℤ) (now : Nat)
    (l : List Merchant) : List Merchant :=
  l.map (fun m =>
    if m.id == merchantId
    then { m with totalPayouts := total, lastPayoutDate := some now } else m)

/-- The transaction body of `processPayout`.  Returns the transaction-final
state and the value the service returns, or on a throw the error message
together with the uncommitted state at the throw point (which the enclosing
`db.transaction` then rolls back). -/
def processPayoutTx (gw : Gateway) (now : Nat) (payoutId : Nat) (db : DB) :
    Except (String × DB) (DB × Payout) :=
  match db.payouts.find? (fun p => p.id == payoutId) with
  | none => .error ("Payout not found", db)
  | some payout =>
    if payout.status != "Pending" then
      .error ("Cannot process payout with status: " ++ payout.status, db)
    else
      match db.merchants.find? (fun m => m.merchantId == payout.merchantId) with
      | none => .error ("Merchant not found", db)
      | some merchant =>
        match db.bankDetails.find? (fun b => b.merchantId == payout.merchantId) with
        | none => .error ("No recipient code set for merchant in bank details", db)
        | some bd =>
          match bd.recipientCode with
          | none => .error ("No recipient code set for merchant in bank details", db)
          | some _rc =>
            -- step 4: optimistic bulk claim of the merchant's splits
            let db1 := { db with
              splits := setSplitsStatus payout.merchantId
                "payout_requested" "processing" db.splits }
            -- step 5: amount validation (kobo = minor units); on a whole
            -- amount, Math.round(amount * 100) is amount * 100
            let amountInKobo : ℤ := payout.amount * 100
            if amountInKobo ≤ 0 then
              .error ("Invalid payout amount", db1)
            else
              match gw.initiateResult with
              | .error msg =>
                -- catch block: revert claimed splits, mark payout failed,
                -- then rethrow (the transaction will roll all of it back)
                let db2 := { db1 with
                  splits := setSplitsStatus payout.merchantId
                    "processing" "payout_requested" db1.splits }
                let db3 := { db2 with
                  payouts := setPayoutStatus payoutId "failed" db2.payouts }
                .error ("Transfer initiation failed: " ++ msg, db3)
              | .ok transfer =>
                -- step 7: verification; a throw is swallowed into "processing"
                let finalStatus :=
                  match gw.verifyResult with
                  | .ok v => if v.status == "success" then "completed" else "processing"
                  | .error _ => "processing"
                -- step 8: persist payout status and transfer code
                let db2 := { db1 with
                  payouts := setPayoutStatusAndCode payoutId finalStatus
                    transfer.transferCode db1.payouts }
                -- steps 9-10: on success, pay splits and update merchant totals
                let db3 :=
                  if finalStatus == "completed" then
                    let db2a := { db2 with
                      splits := setSplitsStatus payout.merchantId
                        "processing" "paid" db2.splits }
                    { db2a with
                      merchants := setMerchantTotals payout.merchantId
                        (merchant.totalPayouts + payout.amount) now db2a.merchants }
                  else db2
                .ok (db3, { payout with status := finalStatus,
                                        paystackTransferId := some transfer.transferCode })

/-- Function `processPayout` from `payout_service.ts`: the transaction body above run
inside `db.transaction` — a throw rolls the transaction back, so the
committed state on the error path is the entry state. -/
def processPayout (gw : Gateway) (now : Nat) (payoutId : Nat) (db : DB) :
    Except String Payout × DB :=
  match processPayoutTx gw now payoutId db with
  | .ok (db2, r) => (.ok r, db2)
  | .error (msg, _discarded) => (.error msg, db)

/-- A gateway webhook event (fields the handler reads). -/
structure WebhookEvent where
  event : String
  transferCode : String
  deriving Repr, DecidableEq

/-- Function `handleTransferWebhook` from `payout_service.ts`.  Runs outside any
transaction, so every update persists even if a later statement throws; the
second component is the error the handler would throw (`none` = returned
normally). -/
def handleTransferWebhook (ev : WebhookEvent) (now : Nat) (db : DB) :
    DB × Option String :=
  if ev.event == "transfer.success" then
    match db.payouts.find? (fun p => p.paystackTransferId == some ev.transferCode) with
    | none => (db, none)
    | some payout =>
      let db1 := { db with payouts := setPayoutStatus payout.id "completed" db.payouts }
      let db2 := { db1 with
        splits := setSplitsStatus payout.merchantId "processing" "paid" db1.splits }
      match db2.merchants.find? (fun m => m.id == payout.merchantId) with
      | none => (db2, some "TypeError: merchant is undefined")
      | some merchant =>
        let newTotal := merchant.totalPayouts + payout.amount
        ({ db2 with
            merchants := setMerchantTotals payout.merchantId newTotal now db2.merchants },
         none)
  else if ev.event == "transfer.failed" || ev.event == "transfer.reversed" then
    match db.payouts.find? (fun p => p.paystackTransferId == some ev.transferCode) with
    | none => (db, none)
    | some payout =>
      let db1 := { db with payouts := setPayoutStatus payout.id "failed" db.payouts }
      let db2 := { db1 with
        splits := setSplitsStatus payout.merchantId
          "processing" "payout_requested" db1.splits }
      -- failure e-mail is inside try/catch: no database effect
      (db2, none)
  else (db, none)

/-- One `createRefund` call made to the gateway: the transaction reference
targeted and the (major-unit) amount passed. -/
structure RefundCall where
  transactionId : String
  amount : ℤ
  deriving Repr, DecidableEq

/-- The payment lookup both refund paths use: the order's payment with
status `Completed` (first match). -/
def findCompletedPayment (db : DB) (orderId : Nat) : Option Payment :=
  db.payments.find? (fun p => p.orderId == orderId && p.status == "Completed")

/-- Update the status of the return-request row with the given id. -/
def setReturnStatus (returnId : Nat) (st : String) (l : List ReturnRequest) :
    List ReturnRequest :=
  l.map (fun r => if r.id == returnId then { r with status := st } else r)

/-- Function `processReturnRefund` from `return_service.ts`.  `refundResult` is the
outcome the gateway's `createRefund` would produce if called.  Returns the
thrown error (if any), the resulting state, and the list of gateway refund
calls actually made.  Note the source has no guard against the return
already being `Refunded`. -/
def processReturnRefund (refundResult : Except String RefundResp)
    (returnId : Nat) (adminId : Option Nat) (db : DB) :
    Except String Unit × DB × List RefundCall :=
  match db.returnRequests.find? (fun r => r.id == returnId) with
  | none => (.ok (), db, [])
  | some rr =>
    match db.orderItems.find? (fun i => i.id == rr.orderItemId) with
    | none => (.ok (), db, [])
    | some orderItem =>
      match db.orders.find? (fun o => o.id == orderItem.orderId) with
      | none => (.ok (), db, [])
      | some order =>
        let payTxn : Option String :=
          match findCompletedPayment db order.id with
          | some p => p.transactionId
          | none => none
        -- the body after the (possible) gateway call succeeds:
        let finish : List RefundCall → Except String Unit × DB × List RefundCall :=
          fun calls =>
            let db1 := { db with
              returnRequests := setReturnStatus returnId "Refunded" db.returnRequests }
            let db2 :=
              match orderItem.variantId with
              | some v =>
                match db1.inventories.find? (fun i => i.variantId == some v) with
                | some inventory =>
                  { db1 with inventories := db1.inventories.map (fun i =>
                      if i.variantId == some v
                      then { i with quantity := inventory.quantity + (orderItem.quantity : Int) }
                      else i) }
                | none => db1
              | none => db1
            let db3 :=
              if adminId.isSome
              then { db2 with audits := db2.audits ++ ["PROCESS_REFUND"] }
              else db2
            (.ok (), db3, calls)
        match payTxn with
        | some txn =>
          let refundAmount := orderItem.price * (orderItem.quantity : ℤ)
          match refundResult with
          | .error e =>
            -- the gateway call was made and threw; nothing written yet,
            -- and the catch block rethrows
            (.error e, db, [{ transactionId := txn, amount := refundAmount }])
          | .ok _refund =>
            finish [{ transactionId := txn, amount := refundAmount }]
        | none => finish []

/-- Function `adminApproveRefund` from `return_service.ts`: sets the return to
`admin_approved` (with no check of its current status) and then invokes
`processReturnRefund`; finally writes an audit record.  No transaction:
writes persist even if the refund routine throws. -/
def adminApproveRefund (refundResult : Except String RefundResp)
    (returnId adminId : Nat) (db : DB) :
    Except String Unit × DB × List RefundCall :=
  match db.returnRequests.find? (fun r => r.id == returnId) with
  | none => (.error "Return request not found", db, [])
  | some _rr =>
    let db1 := { db with
      returnRequests := setReturnStatus returnId "admin_approved" db.returnRequests }
    match processReturnRefund refundResult returnId (some adminId) db1 with
    | (.error e, db2, calls) => (.error e, db2, calls)
    | (.ok _, db2, calls) =>
      ((.ok ()), { db2 with audits := db2.audits ++ ["APPROVE_REFUND"] }, calls)

/-- The `newOrderStatus` computation of `updateOrderStatusFromItems`
(order_status_service lines 38-60), as a pure function of the order's
current status and the items' fulfillment statuses. -/
def deriveOrderStatus (orderStatus : String) (itemStatuses : List String) :
    String :=
  let allSentOrShipped := itemStatuses.all (fun s =>
    s == "SentToAronovaHub" || s == "OutForDelivery")
  let allDelivered := itemStatuses.all (fun s => s == "Delivered")
  let s1 :=
    if allSentOrShipped && orderStatus != "Pending" && orderStatus != "Cancelled"
        && orderStatus != "Completed"
    then "Shipped" else orderStatus
  if allDelivered && orderStatus != "Completed" then "Completed" else s1

/-- Update the status of the order row with the given id. -/
def setOrderStatus (orderId : Nat) (st : String) (l : List Order) :
    List Order :=
  l.map (fun o => if o.id == orderId then { o with status := st } else o)

/-- Function `updateOrderStatusFromItems` from the order status service: loads the
order, derives a new status from the items' fulfillment statuses, and writes
it only when it changed. -/
def updateOrderStatusFromItems (orderId : Nat) (db : DB) :
    Except String (DB × Order) :=
  match db.orders.find? (fun o => o.id == orderId) with
  | none => .error ("Order " ++ toString orderId ++ " not found")
  | some order =>
    let items := db.orderItems.filter (fun i => i.orderId == orderId)
    if items.isEmpty then .ok (db, order)
    else
      let newOrderStatus :=
        deriveOrderStatus order.status (items.map (fun i => i.fulfillmentStatus))
      if newOrderStatus != order.status then
        .ok ({ db with orders := setOrderStatus orderId newOrderStatus db.orders },
             { order with status := newOrderStatus })
      else .ok (db, order)

/-- Does this inventory row match the restock key of this order item
(variant + merchant when the item has a variant, else product + merchant)? -/
def matchesItem (i : Inventory) (it : OrderItem) : Bool :=
  match it.variantId with
  | some v => i.variantId == some v && i.merchantId == it.merchantId
  | none => i.productId == some it.productId && i.merchantId == it.merchantId

/-- The per-item restock update of `cancelOrder`: every inventory row
matching the item's key gets `quantity += item.quantity` and
`reservedQuantity -= item.quantity`. -/
def restockItem (it : OrderItem) (invs : List Inventory) : List Inventory :=
  invs.map (fun i =>
    if matchesItem i it
    then { i with quantity := i.quantity + (it.quantity : Int),
                  reservedQuantity := i.reservedQuantity - (it.quantity : Int) }
    else i)

/-- The restock loop of `cancelOrder` over all the order's items. -/
def restockAll (items : List OrderItem) (invs : List Inventory) :
    List Inventory :=
  items.foldl (fun acc it => restockItem it acc) invs

/-- Function `cancelOrder` from the order status service, one transaction: guard
against missing/`Completed`/`Paid` orders, restock every item, attempt the
refund (a gateway failure is swallowed), set the order `Cancelled`, write an
audit record. -/
def cancelOrder (refundResult : Except String RefundResp) (orderId : Nat)
    (db : DB) : Except String Unit × DB :=
  match db.orders.find? (fun o => o.id == orderId) with
  | none => (.error ("Order " ++ toString orderId ++ " not found"), db)
  | some order =>
    if order.status == "Completed" || order.status == "Paid" then
      (.error ("Cannot cancel order " ++ toString orderId ++
               ": Order is already " ++ order.status), db)
    else
      let items := db.orderItems.filter (fun i => i.orderId == orderId)
      let db1 := { db with inventories := restockAll items db.inventories }
      let db2 :=
        match findCompletedPayment db1 orderId with
        | some payment =>
          match payment.transactionId with
          | some _txn =>
            match refundResult with
            | .ok _refund =>
              { db1 with payments := db1.payments.map (fun (p : Payment) =>
                  if p.id == payment.id then { p with status := "Refunded" } else p) }
            | .error _ => db1   -- refund failure logged, cancellation continues
          | none => db1
        | none => db1
      let db3 := { db2 with orders := setOrderStatus orderId "Cancelled" db2.orders }
      (.ok (), { db3 with audits := db3.audits ++ ["CANCEL_ORDER"] })

/-! ## Sample states -/

/-- One active merchant with one eligible split (100, hold elapsed) and a
configured recipient code; no payouts yet. -/
def c1Db : DB :=
  ⟨[⟨1, 1, "active", "Shop", 0, none⟩], [⟨1, some "RCP"⟩],
   [⟨1, 1, 100, "payout_requested", 5⟩], [], 1, [], [], [], [], [], []⟩

/-- A single payout already in a terminal lowercase status. -/
def c2Db : DB :=
  ⟨[], [], [], [⟨1, 1, 100, "completed", none, none⟩], 2, [], [], [], [], [], []⟩

/-- A `Pending` payout for a merchant with one `payout_requested` split and a
recipient code — ready for `processPayout`. -/
def c3Db : DB :=
  ⟨[⟨1, 1, "active", "Shop", 0, none⟩], [⟨1, some "RCP"⟩],
   [⟨1, 1, 100, "payout_requested", 5⟩],
   [⟨1, 1, 100, "Pending", some "RCP", none⟩], 2, [], [], [], [], [], []⟩

/-- A payout in `processing` with transfer code "TC" and a `processing`
split, awaiting webhook settlement; merchant total 0. -/
def c4Db : DB :=
  ⟨[⟨1, 1, "active", "Shop", 0, none⟩], [],
   [⟨1, 1, 100, "processing", 5⟩],
   [⟨1, 1, 100, "processing", some "RCP", some "TC"⟩], 2, [], [], [], [], [], []⟩

/-- The `transfer.success` event for transfer code "TC". -/
def c4Ev : WebhookEvent := ⟨"transfer.success", "TC"⟩

/-- A return request that has ALREADY reached `Refunded` (its merchant-side
approval refunded it), with its item (price 50, quantity 2, variant 5), the
order's completed payment, and the variant inventory at quantity 10. -/
def c5Db : DB :=
  ⟨[], [], [], [], 1,
   [⟨1, 100, "Completed"⟩],
   [⟨1, 1, 7, some 5, 1, 2, 50, "Processing"⟩],
   [⟨some 5, some 7, 1, 10, 3⟩],
   [⟨1, 1, "Completed", some "TX"⟩],
   [⟨1, 1, "Refunded"⟩],
   []⟩

/-! ## Claims -/

/-- C1: the claim says aggregation creates the Payout with status `Pending`.
The code inserts the lowercase string `"pending"`, a distinct enum value that
the code's own `processPayout` then rejects as an invalid state, so the
aggregate-then-process pipeline can never run.  At the concrete one-merchant
state: exactly one payout is created, its amount is the sum (100) of the
eligible splits, but its status is `"pending"` ≠ `"Pending"`, and processing
it fails. -/
theorem c1_aggregation_pending_case_bug :
    (aggregateEligiblePayouts 10 c1Db).1.payouts =
      [⟨1, 1, 100, "pending", some "RCP", none⟩] ∧
    (aggregateEligiblePayouts 10 c1Db).2 = [⟨1, 1, 100, 1⟩] ∧
    ("pending" : String) ≠ "Pending" ∧
    processPayout ⟨.ok ⟨"TC", "r"⟩, .ok ⟨"success"⟩⟩ 20 1
        (aggregateEligiblePayouts 10 c1Db).1 =
      (.error "Cannot process payout with status: pending",
       (aggregateEligiblePayouts 10 c1Db).1) := by decide

/-- C2: `processPayout` on a payout whose status is not `Pending` fails with
the invalid-state error and leaves the database exactly as it was (the check
precedes every write, and the transaction rolls back on the throw). -/
theorem c2_nonPending_fails_without_mutation (gw : Gateway) (now payoutId : Nat)
    (db : DB) (p : Payout)
    (hfind : db.payouts.find? (fun q => q.id == payoutId) = some p)
    (hstatus : p.status ≠ "Pending") :
    processPayout gw now payoutId db =
      (.error ("Cannot process payout with status: " ++ p.status), db) := by
  unfold processPayout processPayoutTx
  rw [hfind]
  have hb : (p.status != "Pending") = true := by
    simpa [bne_iff_ne] using hstatus
  simp [hb]

/-- Witness for C2 at the concrete state `c2Db` (payout in status
`"completed"`). -/
theorem c2_nonPending_fails_without_mutation_case :
    processPayout ⟨.ok ⟨"TC", "r"⟩, .ok ⟨"success"⟩⟩ 0 1 c2Db =
      (.error ("Cannot process payout with status: " ++ "completed"), c2Db) :=
  c2_nonPending_fails_without_mutation ⟨.ok ⟨"TC", "r"⟩, .ok ⟨"success"⟩⟩ 0 1
    c2Db ⟨1, 1, 100, "completed", none, none⟩ (by decide) (by decide)

/-- C3: when `initiateTransfer` throws, the catch block does write the
claimed splits back to `payout_requested` and the payout to `failed` — but it
then rethrows inside `db.transaction`, so the whole transaction (including
that `failed` write) is rolled back.  The committed state is the entry state:
the splits are back at `payout_requested`, but the payout's persisted status
is still `"Pending"`, not `"failed"` as claimed.  The uncommitted transaction
state at the throw point (carried by `processPayoutTx`) shows the discarded
`failed` write. -/
theorem c3_initiation_failure_failed_write_rolled_back :
    processPayout ⟨.error "boom", .ok ⟨"success"⟩⟩ 20 1 c3Db =
      (.error "Transfer initiation failed: boom", c3Db) ∧
    (processPayout ⟨.error "boom", .ok ⟨"success"⟩⟩ 20 1 c3Db).2.payouts.map
        Payout.status = ["Pending"] ∧
    (processPayout ⟨.error "boom", .ok ⟨"success"⟩⟩ 20 1 c3Db).2.splits.map
        Split.status = ["payout_requested"] ∧
    processPayoutTx ⟨.error "boom", .ok ⟨"success"⟩⟩ 20 1 c3Db =
      .error ("Transfer initiation failed: boom",
        { c3Db with payouts := [⟨1, 1, 100, "failed", some "RCP", none⟩] }) := by
  decide

/-- C4: the `transfer.success` webhook branch is not idempotent.  At `c4Db`
(payout 100 in `processing`), the first application completes the payout,
pays the split and sets the merchant total to 100; a second application of
the same event finds the payout again (still matched by transfer code) and
unconditionally re-adds the amount: the merchant total becomes 200, so the
final state after two applications differs from the state after one.  The
payout status and split statuses, by contrast, are stable, and the second
application raises no error. -/
theorem c4_webhook_second_application_double_counts :
    (handleTransferWebhook c4Ev 20 c4Db).1.merchants.map Merchant.totalPayouts
      = [100] ∧
    (handleTransferWebhook c4Ev 20
        (handleTransferWebhook c4Ev 20 c4Db).1).1.merchants.map
        Merchant.totalPayouts = [200] ∧
    (handleTransferWebhook c4Ev 20 (handleTransferWebhook c4Ev 20 c4Db).1).1
      ≠ (handleTransferWebhook c4Ev 20 c4Db).1 ∧
    (handleTransferWebhook c4Ev 20 (handleTransferWebhook c4Ev 20 c4Db).1).1.payouts
      = (handleTransferWebhook c4Ev 20 c4Db).1.payouts ∧
    (handleTransferWebhook c4Ev 20 (handleTransferWebhook c4Ev 20 c4Db).1).1.splits
      = (handleTransferWebhook c4Ev 20 c4Db).1.splits ∧
    (handleTransferWebhook c4Ev 20 (handleTransferWebhook c4Ev 20 c4Db).1).2
      = none := by decide

/-- C5: `processReturnRefund` has no guard on the return already being
`Refunded`, and `adminApproveRefund` invokes it unconditionally.  At `c5Db`
the return is already `Refunded` (price 50 × quantity 2 refunded earlier),
yet admin approval performs a SECOND gateway refund call for 100 against
transaction "TX" and a second restock (variant inventory 10 → 12), and
returns without error — contradicting the exactly-once invariant. -/
theorem c5_admin_approval_refunds_twice :
    c5Db.returnRequests.map ReturnRequest.status = ["Refunded"] ∧
    (adminApproveRefund (.ok ⟨99⟩) 1 42 c5Db).2.2 = [⟨"TX", 100⟩] ∧
    (adminApproveRefund (.ok ⟨99⟩) 1 42 c5Db).2.1.inventories.map
        Inventory.quantity = [12] ∧
    (adminApproveRefund (.ok ⟨99⟩) 1 42 c5Db).1 = .ok () := by decide

/-- C7: when `initiateTransfer` succeeds but verification throws or reports
a non-`success` status, `processPayout` returns normally: the payout is
persisted as `processing` with the transfer code recorded, the bulk-claimed
splits stay `processing` (the paid transition and the merchant-totals update
are skipped), and the merchants table is untouched. -/
theorem c7_verification_failure_is_soft (gw : Gateway) (now payoutId : Nat)
    (db : DB) (p : Payout) (mch : Merchant) (bd : BankDetails) (rc : String)
    (t : TransferResp)
    (hfind : db.payouts.find? (fun q => q.id == payoutId) = some p)
    (hp : p.status = "Pending")
    (hm : db.merchants.find? (fun m => m.merchantId == p.merchantId) = some mch)
    (hbd : db.bankDetails.find? (fun b => b.merchantId == p.merchantId) = some bd)
    (hrc : bd.recipientCode = some rc)
    (hamt : 0 < p.amount)
    (hinit : gw.initiateResult = .ok t)
    (hver : (∃ e, gw.verifyResult = .error e) ∨
            (∃ v, gw.verifyResult = .ok v ∧ v.status ≠ "success")) :
    processPayout gw now payoutId db =
      (.ok { p with status := "processing",
                    paystackTransferId := some t.transferCode },
       { db with
         splits := setSplitsStatus p.merchantId "payout_requested" "processing"
           db.splits,
         payouts := setPayoutStatusAndCode payoutId "processing" t.transferCode
           db.payouts }) := by
  have hbe : (p.status != "Pending") = false := by simp [hp]
  have hkobo : ¬ (p.amount * 100 ≤ 0) := by
    have : (0 : ℤ) < p.amount * 100 := by positivity
    omega
  unfold processPayout processPayoutTx
  rw [hfind]
  simp only [hbe, Bool.false_eq_true, if_false, hm, hbd, hrc, hinit]
  rcases hver with ⟨e, he⟩ | ⟨v, hv, hvs⟩
  · rw [he]
    simp [hkobo]
  · rw [hv]
    have : (v.status == "success") = false := by simp [hvs]
    simp [hkobo, this]

/-- Witness for C7 at `c3Db` with a verification timeout. -/
theorem c7_verification_failure_is_soft_case :
    processPayout ⟨.ok ⟨"TC", "r"⟩, .error "timeout"⟩ 20 1 c3Db =
      (.ok ⟨1, 1, 100, "processing", some "RCP", some "TC"⟩,
       { c3Db with
         splits := setSplitsStatus 1 "payout_requested" "processing" c3Db.splits,
         payouts := setPayoutStatusAndCode 1 "processing" "TC" c3Db.payouts }) :=
  c7_verification_failure_is_soft ⟨.ok ⟨"TC", "r"⟩, .error "timeout"⟩ 20 1 c3Db
    ⟨1, 1, 100, "Pending", some "RCP", none⟩ ⟨1, 1, "active", "Shop", 0, none⟩
    ⟨1, some "RCP"⟩ "RCP" ⟨"TC", "r"⟩
    (by decide) (by decide) (by decide) (by decide) (by decide) (by decide)
    (by decide) (.inl ⟨"timeout", rfl⟩)

/-- Update `setPayoutStatusAndCode` touches only status and transfer code: the
(id, amount) projection of the payouts table is unchanged. -/
theorem setPayoutStatusAndCode_id_amount (payoutId : Nat) (st code : String)
    (l : List Payout) :
    (setPayoutStatusAndCode payoutId st code l).map (fun q => (q.id, q.amount)) =
      l.map (fun q => (q.id, q.amount)) := by
  unfold setPayoutStatusAndCode
  rw [List.map_map]
  apply List.map_congr_left
  intro q _
  by_cases h : q.id = payoutId <;> simp [h]

/-- On the committed-transaction path, `processPayoutTx` only ever rewrites
payout status/transfer code, never id or amount. -/
theorem processPayoutTx_id_amount (gw : Gateway) (now payoutId : Nat)
    (db db2 : DB) (r : Payout)
    (h : processPayoutTx gw now payoutId db = .ok (db2, r)) :
    db2.payouts.map (fun q => (q.id, q.amount)) =
      db.payouts.map (fun q => (q.id, q.amount)) := by
  unfold processPayoutTx at h
  repeat' split at h
  all_goals try (rw [ite_eq_iff] at h; rcases h with ⟨-, h⟩ | ⟨-, h⟩)
  all_goals try (injection h with h; injection h with hdb hr; subst hdb)
  all_goals simp_all [setPayoutStatusAndCode_id_amount]

/-- Processing never changes any payout's id or amount, on any input
(errors roll back; successes only rewrite status and transfer code). -/
theorem processPayout_id_amount (gw : Gateway) (now payoutId : Nat) (db : DB) :
    ((processPayout gw now payoutId db).2.payouts).map (fun q => (q.id, q.amount)) =
      db.payouts.map (fun q => (q.id, q.amount)) := by
  cases hx : processPayoutTx gw now payoutId db with
  | error e => simp [processPayout, hx]
  | ok v =>
    obtain ⟨db2, r⟩ := v
    simp only [processPayout, hx]
    exact processPayoutTx_id_amount gw now payoutId db db2 r hx

/-- A `Pending` payout of amount 100 (the sum of the splits eligible when it
was aggregated at time 10: only split 1), while split 2 (amount 50) is
`payout_requested` with `holdUntil = 30` still in the future. -/
def c6Db : DB :=
  ⟨[⟨1, 1, "active", "Shop", 0, none⟩], [⟨1, some "RCP"⟩],
   [⟨1, 1, 100, "payout_requested", 5⟩, ⟨2, 1, 50, "payout_requested", 30⟩],
   [⟨1, 1, 100, "Pending", some "RCP", none⟩], 2, [], [], [], [], [], []⟩

/-- C6 counterexample: at `c6Db`, only split 1 (amount 100) was eligible at
aggregation time, and the payout's amount is 100 — yet `processPayout` at
time 20 bulk-claims every `payout_requested` split of the merchant with no
`holdUntil` filter, so after a successful transfer BOTH splits are `paid`:
the sum of amounts over the payout's processing/paid splits is 150 ≠ 100.
The claimed invariant fails. -/
theorem c6_amount_vs_claimed_splits_mismatch :
    eligibleSplitsFor 10 c6Db 1 = [⟨1, 1, 100, "payout_requested", 5⟩] ∧
    (processPayout ⟨.ok ⟨"TC", "r"⟩, .ok ⟨"success"⟩⟩ 20 1 c6Db).1 =
      .ok ⟨1, 1, 100, "completed", some "RCP", some "TC"⟩ ∧
    ((processPayout ⟨.ok ⟨"TC", "r"⟩, .ok ⟨"success"⟩⟩ 20 1 c6Db).2.splits.filter
        (fun s => s.merchantId == 1 && s.status == "paid")).map Split.amountDue
      = [100, 50] ∧
    (processPayout ⟨.ok ⟨"TC", "r"⟩, .ok ⟨"success"⟩⟩ 20 1
        c6Db).2.payouts.map Payout.amount = [100] ∧
    (100 : ℤ) + 50 ≠ (100 : ℤ) := by decide

/-- C6 amended: a payout's amount is indeed never mutated after creation
(`processPayout` preserves every payout's id and amount on every path), but
the splits the bulk claim moves to `processing` (and to `paid` on success)
are ALL the merchant's currently-`payout_requested` splits — with no
`holdUntil` or creation-time filter — so they need not be the splits summed
into the payout, and the sum over its processing/paid splits can exceed its
amount. -/
theorem c6_amended_amount_immutable_claim_set_unfiltered (gw : Gateway)
    (now payoutId : Nat) (db : DB) (p : Payout) (mch : Merchant)
    (bd : BankDetails) (rc : String) (t : TransferResp) (v : VerifyResp)
    (hfind : db.payouts.find? (fun q => q.id == payoutId) = some p)
    (hp : p.status = "Pending")
    (hm : db.merchants.find? (fun m => m.merchantId == p.merchantId) = some mch)
    (hbd : db.bankDetails.find? (fun b => b.merchantId == p.merchantId) = some bd)
    (hrc : bd.recipientCode = some rc)
    (hamt : 0 < p.amount)
    (hinit : gw.initiateResult = .ok t)
    (hver : gw.verifyResult = .ok v) (hvs : v.status = "success") :
    (∀ (gw2 : Gateway) (now2 pid2 : Nat) (db2 : DB),
      ((processPayout gw2 now2 pid2 db2).2.payouts).map (fun q => (q.id, q.amount))
        = db2.payouts.map (fun q => (q.id, q.amount))) ∧
    (processPayout gw now payoutId db).2.splits =
      setSplitsStatus p.merchantId "processing" "paid"
        (setSplitsStatus p.merchantId "payout_requested" "processing" db.splits) ∧
    (∀ s ∈ db.splits, s.merchantId = p.merchantId → s.status = "payout_requested" →
      ({ s with status := "paid" } : Split) ∈
        (processPayout gw now payoutId db).2.splits) := by
  have hbe : (p.status != "Pending") = false := by simp [hp]
  have hkobo : ¬ (p.amount * 100 ≤ 0) := by
    have : (0 : ℤ) < p.amount * 100 := by positivity
    omega
  have hsucc : (v.status == "success") = true := by simp [hvs]
  have hsplits : (processPayout gw now payoutId db).2.splits =
      setSplitsStatus p.merchantId "processing" "paid"
        (setSplitsStatus p.merchantId "payout_requested" "processing" db.splits) := by
    unfold processPayout processPayoutTx
    rw [hfind]
    simp only [hbe, Bool.false_eq_true, if_false, hm, hbd, hrc, hinit, hver, hsucc]
    simp [hkobo]
  refine ⟨fun gw2 now2 pid2 db2 => processPayout_id_amount gw2 now2 pid2 db2,
          hsplits, ?_⟩
  intro s hs hsm hss
  rw [hsplits]
  have h1 : ({ s with status := "processing" } : Split) ∈
      setSplitsStatus p.merchantId "payout_requested" "processing" db.splits := by
    unfold setSplitsStatus
    have : ({ s with status := "processing" } : Split) =
        (if s.merchantId == p.merchantId && s.status == "payout_requested"
         then { s with status := "processing" } else s) := by
      simp [hsm, hss]
    rw [this]
    exact List.mem_map_of_mem _ hs
  unfold setSplitsStatus
  have h2 : ({ s with status := "paid" } : Split) =
      (if ({ s with status := "processing" } : Split).merchantId == p.merchantId &&
          ({ s with status := "processing" } : Split).status == "processing"
       then { ({ s with status := "processing" } : Split) with status := "paid" }
       else { s with status := "processing" }) := by
    simp [hsm]
  rw [h2]
  exact List.mem_map_of_mem _ h1

/-- Witness for C6's amended theorem at `c6Db` with a successful transfer:
split 2 (`holdUntil` 30, never summed) ends `paid`. -/
theorem c6_amended_case :
    (⟨2, 1, 50, "paid", 30⟩ : Split) ∈
      (processPayout ⟨.ok ⟨"TC", "r"⟩, .ok ⟨"success"⟩⟩ 20 1 c6Db).2.splits :=
  (c6_amended_amount_immutable_claim_set_unfiltered
      ⟨.ok ⟨"TC", "r"⟩, .ok ⟨"success"⟩⟩ 20 1 c6Db
      ⟨1, 1, 100, "Pending", some "RCP", none⟩ ⟨1, 1, "active", "Shop", 0, none⟩
      ⟨1, some "RCP"⟩ "RCP" ⟨"TC", "r"⟩ ⟨"success"⟩
      (by decide) (by decide) (by decide) (by decide) (by decide) (by decide)
      (by decide) (by decide) (by decide)).2.2
    ⟨2, 1, 50, "payout_requested", 30⟩ (by decide) (by decide) (by decide)

/-- C8: the order-status derivation is the pure rule the spec states
(`SentToHub` is spelled `SentToAronovaHub` in the source): all items
sent-or-out-for-delivery and the order not `Pending`/`Cancelled`/`Completed`
gives `Shipped`; all items `Delivered` gives `Completed`; any other item
multiset leaves the status unchanged.  The last conjunct ties the service
function to the rule: `updateOrderStatusFromItems` writes exactly the
derived status (when it differs) for every order with a nonempty item list. -/
theorem c8_order_status_derivation_rule (st : String) (sts : List String)
    (h : sts ≠ []) :
    ((∀ s ∈ sts, s = "SentToAronovaHub" ∨ s = "OutForDelivery") →
      st ≠ "Pending" → st ≠ "Cancelled" → st ≠ "Completed" →
      deriveOrderStatus st sts = "Shipped") ∧
    ((∀ s ∈ sts, s = "Delivered") → deriveOrderStatus st sts = "Completed") ∧
    ((¬ ∀ s ∈ sts, s = "SentToAronovaHub" ∨ s = "OutForDelivery") →
      (¬ ∀ s ∈ sts, s = "Delivered") → deriveOrderStatus st sts = st) ∧
    deriveOrderStatus "Processing" ["SentToAronovaHub", "OutForDelivery"]
      = "Shipped" ∧
    deriveOrderStatus "Paid" ["Delivered", "Delivered"] = "Completed" ∧
    deriveOrderStatus "Processing" ["Declined", "Confirmed"] = "Processing" ∧
    (∀ (db : DB) (orderId : Nat) (o : Order),
      db.orders.find? (fun x => x.id == orderId) = some o →
      db.orderItems.filter (fun i => i.orderId == orderId) ≠ [] →
      updateOrderStatusFromItems orderId db =
        (if deriveOrderStatus o.status
              ((db.orderItems.filter (fun i => i.orderId == orderId)).map
                (fun i => i.fulfillmentStatus)) = o.status
         then .ok (db, o)
         else .ok
           ({ db with
              orders := setOrderStatus orderId
                (deriveOrderStatus o.status
                  ((db.orderItems.filter (fun i => i.orderId == orderId)).map
                    (fun i => i.fulfillmentStatus))) db.orders },
            { o with
              status := deriveOrderStatus o.status
                ((db.orderItems.filter (fun i => i.orderId == orderId)).map
                  (fun i => i.fulfillmentStatus)) }))) := by
  refine ⟨?_, ?_, ?_, by decide, by decide, by decide, ?_⟩
  · intro hall hp hc hcomp
    obtain ⟨s0, hs0⟩ := List.exists_mem_of_ne_nil sts h
    have h1 : sts.all (fun s => s == "SentToAronovaHub" || s == "OutForDelivery")
        = true := by
      rw [List.all_eq_true]
      intro x hx
      rcases hall x hx with h' | h' <;> simp [h']
    have h2 : sts.all (fun s => s == "Delivered") = false := by
      rw [Bool.eq_false_iff]
      intro hAll
      have := List.all_eq_true.mp hAll s0 hs0
      rcases hall s0 hs0 with h' | h' <;> simp [h'] at this
    unfold deriveOrderStatus
    simp [h1, h2, bne_iff_ne, hp, hc, hcomp]
  · intro hall
    have h2 : sts.all (fun s => s == "Delivered") = true :=
      List.all_eq_true.mpr (fun x hx => by simp [hall x hx])
    by_cases hc : st = "Completed"
    · unfold deriveOrderStatus
      simp [h2, hc]
    · unfold deriveOrderStatus
      simp [h2, bne_iff_ne, hc]
  · intro hns hnd
    have h1 : sts.all (fun s => s == "SentToAronovaHub" || s == "OutForDelivery")
        = false := by
      rw [Bool.eq_false_iff]
      intro hAll
      exact hns (fun x hx => by
        have := List.all_eq_true.mp hAll x hx
        simpa using this)
    have h2 : sts.all (fun s => s == "Delivered") = false := by
      rw [Bool.eq_false_iff]
      intro hAll
      exact hnd (fun x hx => by
        have := List.all_eq_true.mp hAll x hx
        simpa using this)
    unfold deriveOrderStatus
    simp [h1, h2]
  · intro db orderId o hfind hne
    unfold updateOrderStatusFromItems
    rw [hfind]
    have hie : (db.orderItems.filter (fun i => i.orderId == orderId)).isEmpty
        = false := by
      rw [Bool.eq_false_iff]
      intro hAll
      exact hne (List.isEmpty_iff.mp hAll)
    by_cases hn : deriveOrderStatus o.status
        ((db.orderItems.filter (fun i => i.orderId == orderId)).map
          (fun i => i.fulfillmentStatus)) = o.status
    · simp [hie, hn]
    · simp [hie, bne_iff_ne, hn]

/-- Witness for C8: two delivered items complete a `Processing` order. -/
theorem c8_order_status_derivation_rule_case :
    deriveOrderStatus "Processing" ["Delivered", "Delivered"] = "Completed" :=
  (c8_order_status_derivation_rule "Processing" ["Delivered", "Delivered"]
    (by decide)).2.1 (by decide)

/-- C9: when the return's order has no `Completed` payment carrying a
transaction reference, `processReturnRefund` makes no gateway refund call
(the refund-call list is empty, whatever the gateway would have answered),
still marks the return `Refunded`, still restocks the item's variant
inventory, and returns without error. -/
theorem c9_no_payment_still_refunded_and_restocked
    (refundResult : Except String RefundResp) (returnId : Nat)
    (adminId : Option Nat) (db : DB) (rr : ReturnRequest) (it : OrderItem)
    (v : Nat) (o : Order) (inv : Inventory)
    (hr : db.returnRequests.find? (fun r => r.id == returnId) = some rr)
    (hi : db.orderItems.find? (fun i => i.id == rr.orderItemId) = some it)
    (hv : it.variantId = some v)
    (ho : db.orders.find? (fun x => x.id == it.orderId) = some o)
    (hpay : (match findCompletedPayment db o.id with
             | some p => p.transactionId
             | none => none) = (none : Option String))
    (hinv : db.inventories.find? (fun i => i.variantId == some v) = some inv) :
    processReturnRefund refundResult returnId adminId db =
      (.ok (),
       { db with
         returnRequests := setReturnStatus returnId "Refunded" db.returnRequests,
         inventories := db.inventories.map (fun i =>
           if i.variantId == some v
           then { i with quantity := inv.quantity + (it.quantity : Int) }
           else i),
         audits := if adminId.isSome
                   then db.audits ++ ["PROCESS_REFUND"] else db.audits },
       []) := by
  unfold processReturnRefund
  simp only [hr, hi, ho, hpay, hv, hinv]
  by_cases ha : adminId.isSome <;> simp [ha]

/-- A merchant-approved return whose order has NO payment rows at all,
with a variant-linked item (quantity 2) and its inventory at 10. -/
def c9Db : DB :=
  ⟨[], [], [], [], 1,
   [⟨1, 100, "Completed"⟩],
   [⟨1, 1, 7, some 5, 1, 2, 50, "Processing"⟩],
   [⟨some 5, some 7, 1, 10, 3⟩],
   [],
   [⟨1, 1, "merchant_approved"⟩],
   []⟩

/-- Witness for C9 at `c9Db`; the gateway oracle is set to throw, showing
no refund call can have been made. -/
theorem c9_no_payment_still_refunded_and_restocked_case :
    processReturnRefund (.error "gateway never called") 1 none c9Db =
      (.ok (),
       { c9Db with
         returnRequests := [⟨1, 1, "Refunded"⟩],
         inventories := [⟨some 5, some 7, 1, 12, 3⟩] },
       []) := by
  rw [c9_no_payment_still_refunded_and_restocked (.error "gateway never called")
    1 none c9Db ⟨1, 1, "merchant_approved"⟩ ⟨1, 1, 7, some 5, 1, 2, 50, "Processing"⟩
    5 ⟨1, 100, "Completed"⟩ ⟨some 5, some 7, 1, 10, 3⟩
    (by decide) (by decide) (by decide) (by decide) (by decide) (by decide)]
  decide

/-- Pointwise form of the restock loop: fold the per-item bump over one
inventory row. -/
def applyRestocks (items : List OrderItem) (i : Inventory) : Inventory :=
  items.foldl (fun j it =>
    if matchesItem j it
    then { j with quantity := j.quantity + (it.quantity : Int),
                  reservedQuantity := j.reservedQuantity - (it.quantity : Int) }
    else j) i

/-- Total quantity the given items restock into inventory row `i`. -/
def restockTotal (i : Inventory) (items : List OrderItem) : ℤ :=
  ((items.filter (fun it => matchesItem i it)).map
    (fun it => (it.quantity : ℤ))).sum

/-- Bumping quantities does not change which items an inventory row
matches. -/
theorem matchesItem_update (i : Inventory) (it : OrderItem) (x y : ℤ) :
    matchesItem { i with quantity := x, reservedQuantity := y } it =
      matchesItem i it := by
  cases hv : it.variantId <;> simp [matchesItem, hv]

/-- The restock loop acts row-wise. -/
theorem restockAll_eq_map (items : List OrderItem) (invs : List Inventory) :
    restockAll items invs = invs.map (applyRestocks items) := by
  induction items generalizing invs with
  | nil => exact (List.map_id invs).symm
  | cons it its ih =>
    have h0 : restockAll (it :: its) invs
        = restockAll its (restockItem it invs) := rfl
    rw [h0, ih, restockItem, List.map_map]
    rfl

/-- One row's final quantities after the restock loop: the initial values
shifted by the total quantity of the matching items. -/
theorem applyRestocks_eq (items : List OrderItem) (i : Inventory) :
    applyRestocks items i =
      { i with quantity := i.quantity + restockTotal i items,
               reservedQuantity := i.reservedQuantity - restockTotal i items } := by
  induction items generalizing i with
  | nil => simp [applyRestocks, restockTotal]
  | cons it its ih =>
    by_cases hm : matchesItem i it
    · have h0 : applyRestocks (it :: its) i =
          applyRestocks its
            { i with quantity := i.quantity + (it.quantity : Int),
                     reservedQuantity := i.reservedQuantity - (it.quantity : Int) } := by
        simp [applyRestocks, hm]
      have hT : restockTotal
          { i with quantity := i.quantity + (it.quantity : Int),
                   reservedQuantity := i.reservedQuantity - (it.quantity : Int) } its
          = restockTotal i its := by
        unfold restockTotal
        rw [List.filter_congr (fun it2 _ => matchesItem_update i it2
          (i.quantity + (it.quantity : Int))
          (i.reservedQuantity - (it.quantity : Int)))]
      rw [h0, ih, hT]
      have hc : restockTotal i (it :: its)
          = (it.quantity : ℤ) + restockTotal i its := by
        unfold restockTotal
        simp [List.filter_cons, hm]
      rw [hc]
      simp [Inventory.mk.injEq]
      all_goals omega
    · have h0 : applyRestocks (it :: its) i = applyRestocks its i := by
        simp [applyRestocks, hm]
      have hc : restockTotal i (it :: its) = restockTotal i its := by
        unfold restockTotal
        simp [List.filter_cons, hm]
      rw [h0, ih, hc]

/-- Looking an order up by id after `setOrderStatus` finds the same row with
the new status. -/
theorem find?_setOrderStatus (orderId : Nat) (st : String) (l : List Order) :
    (setOrderStatus orderId st l).find? (fun x => x.id == orderId) =
      (l.find? (fun x => x.id == orderId)).map
        (fun o => { o with status := st }) := by
  induction l with
  | nil => rfl
  | cons a l ih =>
    by_cases h : a.id = orderId
    · have hhd : setOrderStatus orderId st (a :: l) =
          { a with status := st } :: setOrderStatus orderId st l := by
        simp [setOrderStatus, h]
      rw [hhd, List.find?_cons_of_pos _ (by simp [h]),
          List.find?_cons_of_pos _ (by simp [h])]
      rfl
    · have hhd : setOrderStatus orderId st (a :: l) =
          a :: setOrderStatus orderId st l := by
        simp [setOrderStatus, h]
      rw [hhd, List.find?_cons_of_neg _ (by simp [h]),
          List.find?_cons_of_neg _ (by simp [h])]
      exact ih

/-- On any order that exists and is neither `Completed` nor `Paid`,
`cancelOrder` succeeds; each inventory row's quantity rises (and its
reservation falls) by the total quantity of the order's items matching its
key; the order row is set `Cancelled`; the items are untouched. -/
theorem cancelOrder_ok_characterization
    (refundResult : Except String RefundResp) (orderId : Nat) (db : DB)
    (o : Order)
    (hfind : db.orders.find? (fun x => x.id == orderId) = some o)
    (hc : o.status ≠ "Completed") (hp : o.status ≠ "Paid") :
    (cancelOrder refundResult orderId db).1 = .ok () ∧
    (cancelOrder refundResult orderId db).2.inventories =
      db.inventories.map (fun i =>
        { i with
          quantity := i.quantity +
            restockTotal i (db.orderItems.filter (fun x => x.orderId == orderId)),
          reservedQuantity := i.reservedQuantity -
            restockTotal i (db.orderItems.filter (fun x => x.orderId == orderId)) }) ∧
    (cancelOrder refundResult orderId db).2.orders =
      setOrderStatus orderId "Cancelled" db.orders ∧
    (cancelOrder refundResult orderId db).2.orderItems = db.orderItems := by
  have hcp : (o.status == "Completed" || o.status == "Paid") = false := by
    simp [hc, hp]
  have hinvs : restockAll (db.orderItems.filter (fun x => x.orderId == orderId))
      db.inventories =
      db.inventories.map (fun i =>
        { i with
          quantity := i.quantity +
            restockTotal i (db.orderItems.filter (fun x => x.orderId == orderId)),
          reservedQuantity := i.reservedQuantity -
            restockTotal i (db.orderItems.filter (fun x => x.orderId == orderId)) }) := by
    rw [restockAll_eq_map]
    apply List.map_congr_left
    intro i _
    exact applyRestocks_eq _ i
  unfold cancelOrder
  simp only [hfind, hcp, Bool.false_eq_true, if_false]
  repeat' split
  all_goals exact ⟨trivial, hinvs, rfl, rfl⟩

/-- C10: `cancelOrder` raises an error exactly when the order is absent or
in `Completed`/`Paid` (store operations assumed to succeed; a gateway refund
failure is swallowed); in every other status — `Cancelled` included — it
proceeds and restocks every item: each inventory row gains the matching
items' total quantity and loses it from `reservedQuantity`, again on each
repeated invocation (last conjuncts: a second call on the now-`Cancelled`
order succeeds and bumps the same rows a further time). -/
theorem c10_cancelOrder_error_iff_and_repeated_restock
    (refundResult r2 : Except String RefundResp) (orderId : Nat) (db : DB) :
    (db.orders.find? (fun x => x.id == orderId) = none →
      cancelOrder refundResult orderId db =
        (.error ("Order " ++ toString orderId ++ " not found"), db)) ∧
    (∀ o : Order, db.orders.find? (fun x => x.id == orderId) = some o →
      (o.status = "Completed" ∨ o.status = "Paid") →
      cancelOrder refundResult orderId db =
        (.error ("Cannot cancel order " ++ toString orderId ++
                 ": Order is already " ++ o.status), db)) ∧
    (∀ o : Order, db.orders.find? (fun x => x.id == orderId) = some o →
      o.status ≠ "Completed" → o.status ≠ "Paid" →
      (cancelOrder refundResult orderId db).1 = .ok () ∧
      (cancelOrder refundResult orderId db).2.inventories =
        db.inventories.map (fun i =>
          { i with
            quantity := i.quantity +
              restockTotal i (db.orderItems.filter (fun x => x.orderId == orderId)),
            reservedQuantity := i.reservedQuantity -
              restockTotal i (db.orderItems.filter (fun x => x.orderId == orderId)) }) ∧
      (cancelOrder refundResult orderId db).2.orders =
        setOrderStatus orderId "Cancelled" db.orders ∧
      (cancelOrder refundResult orderId db).2.orderItems = db.orderItems ∧
      (cancelOrder r2 orderId (cancelOrder refundResult orderId db).2).1
        = .ok () ∧
      (cancelOrder r2 orderId (cancelOrder refundResult orderId db).2).2.inventories
        = (cancelOrder refundResult orderId db).2.inventories.map (fun i =>
            { i with
              quantity := i.quantity +
                restockTotal i (db.orderItems.filter (fun x => x.orderId == orderId)),
              reservedQuantity := i.reservedQuantity -
                restockTotal i (db.orderItems.filter (fun x => x.orderId == orderId)) })) := by
  refine ⟨?_, ?_, ?_⟩
  · intro h
    unfold cancelOrder
    simp [h]
  · intro o hf hco
    have hcp : (o.status == "Completed" || o.status == "Paid") = true := by
      rcases hco with h | h <;> simp [h]
    unfold cancelOrder
    simp [hf, hcp]
  · intro o hf hc hp
    obtain ⟨h1, h2, h3, h4⟩ :=
      cancelOrder_ok_characterization refundResult orderId db o hf hc hp
    have hf2 : (cancelOrder refundResult orderId db).2.orders.find?
        (fun x => x.id == orderId) = some { o with status := "Cancelled" } := by
      rw [h3, find?_setOrderStatus, hf]
      rfl
    obtain ⟨g1, g2, g3, g4⟩ :=
      cancelOrder_ok_characterization r2 orderId
        (cancelOrder refundResult orderId db).2 { o with status := "Cancelled" }
        hf2 (show ("Cancelled" : String) ≠ "Completed" by decide)
        (show ("Cancelled" : String) ≠ "Paid" by decide)
    refine ⟨h1, h2, h3, h4, g1, ?_⟩
    rw [g2, h4]

/-- A `Processing` order with one item (quantity 2, variant 5), its
inventory row (quantity 10, reserved 3) and a completed payment. -/
def c10Db : DB :=
  ⟨[], [], [], [], 1,
   [⟨1, 100, "Processing"⟩],
   [⟨1, 1, 7, some 5, 1, 2, 50, "Processing"⟩],
   [⟨some 5, some 7, 1, 10, 3⟩],
   [⟨1, 1, "Completed", some "TX"⟩],
   [], []⟩

/-- Witness for C10 at `c10Db`: the first cancellation succeeds and restocks
(10 → 12, reserved 3 → 1); cancelling the already-`Cancelled` order again —
with the refund gateway now failing — still succeeds and restocks a further
time (12 → 14, reserved 1 → −1). -/
theorem c10_cancelOrder_error_iff_and_repeated_restock_case :
    (cancelOrder (.ok ⟨99⟩) 1 c10Db).1 = .ok () ∧
    (cancelOrder (.ok ⟨99⟩) 1 c10Db).2.inventories =
      [⟨some 5, some 7, 1, 12, 1⟩] ∧
    (cancelOrder (.error "gw down") 1 (cancelOrder (.ok ⟨99⟩) 1 c10Db).2).1
      = .ok () ∧
    (cancelOrder (.error "gw down") 1
        (cancelOrder (.ok ⟨99⟩) 1 c10Db).2).2.inventories =
      [⟨some 5, some 7, 1, 14, -1⟩] := by
  obtain ⟨h1, h2, h3, h4, g1, g2⟩ :=
    (c10_cancelOrder_error_iff_and_repeated_restock (.ok ⟨99⟩) (.error "gw down")
      1 c10Db).2.2 ⟨1, 100, "Processing"⟩ (by decide) (by decide) (by decide)
  refine ⟨h1, ?_, g1, ?_⟩
  · rw [h2]; decide
  · rw [g2, h2]; decide
